import Mathlib

/-!
Shallow embedding of the `pgfplots` Rust crate (document tree, renderer,
option collections, requirement propagation, compile/save pipeline).

Conventions of the embedding:
* Rust `f64` fields are embedded as `Int`.  Every numeric value appearing in
  the claims is integral, and the only operation the crate ever performs on
  these floats is `Display` formatting; Rust's `Display` for an integral
  `f64` prints the plain integer (e.g. `5.0` → `"5"`), which coincides with
  `toString` on `Int`.
* `Display` implementations become `render` functions returning `String`.
  `Histogram`'s option `Display` contains `todo!()` arms (a panic), so the
  render functions on any node that can contain a histogram return
  `Option String`, with `none` standing for the panic.
* Filesystem and process effects (`LatexOutput::compile`, `LatexOutput::save`)
  are embedded by passing the results of the individual system calls in as
  explicit oracle values and recording the performed effects in the result.
* Literal braces in rendered text are written with `\x7b` / `\x7d` escapes.
-/

/-- Abstract stand-in for Rust's opaque `std::io::Error` values. -/
structure IoError where
  tag : Nat
deriving DecidableEq, Repr

/-- `Coordinate2D` (src/document/tikzpicture/axis/plot/bidimensional/coordinate/mod.rs). -/
structure Coordinate2D where
  x : Int
  y : Int
  error_x : Option Int
  error_y : Option Int
deriving DecidableEq, Repr

/-- `impl fmt::Display for Coordinate2D`: writes `(x,y)` and, whenever
`error_x` or `error_y` is `Some`, a tab followed by `+- (ex,ey)` with the
missing component defaulted to `0`. -/
def Coordinate2D.render (c : Coordinate2D) : String :=
  "(" ++ toString c.x ++ "," ++ toString c.y ++ ")" ++
    (if c.error_x.isSome || c.error_y.isSome then
      "\t+- (" ++ toString (c.error_x.getD 0) ++ "," ++ toString (c.error_y.getD 0) ++ ")"
    else "")

/-- `ErrorCharacter` (bidimensional/mod.rs). -/
inductive ErrorCharacter where
  | Absolute
  | Relative
deriving DecidableEq, Repr

def ErrorCharacter.render : ErrorCharacter → String
  | .Absolute => "explicit"
  | .Relative => "explicit relative"

/-- `ErrorDirection` (bidimensional/mod.rs). -/
inductive ErrorDirection where
  | None
  | Plus
  | Minus
  | Both
deriving DecidableEq, Repr

def ErrorDirection.render : ErrorDirection → String
  | .None => "none"
  | .Plus => "plus"
  | .Minus => "minus"
  | .Both => "both"

/-- `Type2D` (bidimensional/mod.rs); `f64` fields embedded as `Int`. -/
inductive Type2D where
  | SharpPlot
  | Smooth (tension : Int)
  | ConstLeft
  | ConstRight
  | ConstMid
  | JumpLeft
  | JumpRight
  | JumpMid
  | XBar (bar_width : Int) (bar_shift : Int)
  | YBar (bar_width : Int) (bar_shift : Int)
  | XComb
  | YComb
  | OnlyMarks
deriving DecidableEq, Repr

def Type2D.render : Type2D → String
  | .SharpPlot => "sharp plot"
  | .Smooth tension => "smooth, tension=" ++ toString tension
  | .ConstLeft => "const plot mark left"
  | .ConstRight => "const plot mark right"
  | .ConstMid => "const plot mark mid"
  | .JumpLeft => "jump mark left"
  | .JumpRight => "jump mark right"
  | .JumpMid => "jump mark mid"
  | .XBar w s => "xbar, bar width=" ++ toString w ++ ", bar shift=" ++ toString s
  | .YBar w s => "ybar, bar width=" ++ toString w ++ ", bar shift=" ++ toString s
  | .XComb => "xcomb"
  | .YComb => "ycomb"
  | .OnlyMarks => "only marks"

/-- `PlotOption` (bidimensional/mod.rs). -/
inductive PlotOption where
  | Custom (s : String)
  | Type2D (t : Type2D)
  | XError (c : ErrorCharacter)
  | XErrorDirection (d : ErrorDirection)
  | YError (c : ErrorCharacter)
  | YErrorDirection (d : ErrorDirection)
deriving DecidableEq, Repr

/-- Rust's `std::mem::discriminant` on `PlotOption`: a tag identifying the
variant, ignoring the payload. -/
def PlotOption.kind : PlotOption → Nat
  | .Custom _ => 0
  | .Type2D _ => 1
  | .XError _ => 2
  | .XErrorDirection _ => 3
  | .YError _ => 4
  | .YErrorDirection _ => 5

def PlotOption.isCustom : PlotOption → Bool
  | .Custom _ => true
  | _ => false

def PlotOption.render : PlotOption → String
  | .Custom key => key
  | .Type2D v => v.render
  | .XError v => "error bars/x " ++ v.render
  | .XErrorDirection v => "error bars/x dir=" ++ v.render
  | .YError v => "error bars/y " ++ v.render
  | .YErrorDirection v => "error bars/y dir=" ++ v.render

/-- `Plot2D` (bidimensional/mod.rs). -/
structure Plot2D where
  options : List PlotOption
  coordinates : List Coordinate2D
deriving DecidableEq, Repr

/-- `Plot2D::new` / `Default`. -/
def Plot2D.new : Plot2D := ⟨[], []⟩

/-- `Plot2D::add_option`: for a non-`Custom` option, remove the first
option whose discriminant matches the inserted one, then push. -/
def Plot2D.add_option (p : Plot2D) (key : PlotOption) : Plot2D :=
  let options :=
    if key.isCustom then p.options
    else
      match p.options.findIdx? (fun k => k.kind == key.kind) with
      | some index => p.options.eraseIdx index
      | none => p.options
  { p with options := options ++ [key] }

/-- `Plot2D::option` (chaining variant; same body as `add_option`). -/
def Plot2D.option (p : Plot2D) (key : PlotOption) : Plot2D :=
  let options :=
    if key.isCustom then p.options
    else
      match p.options.findIdx? (fun k => k.kind == key.kind) with
      | some index => p.options.eraseIdx index
      | none => p.options
  { p with options := options ++ [key] }

/-- `impl fmt::Display for Plot2D`. -/
def Plot2D.render (p : Plot2D) : String :=
  "\t\\addplot[" ++
    (if p.options.isEmpty then ""
     else "\n" ++ String.join (p.options.map (fun k => "\t\t" ++ k.render ++ ",\n")) ++ "\t") ++
    "] coordinates \x7b\n" ++
    String.join (p.coordinates.map (fun c => "\t\t" ++ c.render ++ "\n")) ++
    "\t\x7d;"

/-- `HistogramOption` (src/libs/statistics/histogram.rs). -/
inductive HistogramOption where
  | Custom (s : String)
  | Data (u : Unit)
  | DataValue (u : Unit)
  | DataMin (v : Int)
  | DataMax (v : Int)
  | Bins (n : Nat)
  | Intervals (b : Bool)
  | Cumulative (b : Bool)
  | Density (b : Bool)
  | Handler (s : String)
deriving DecidableEq, Repr

/-- Rust's `std::mem::discriminant` on `HistogramOption`. -/
def HistogramOption.kind : HistogramOption → Nat
  | .Custom _ => 0
  | .Data _ => 1
  | .DataValue _ => 2
  | .DataMin _ => 3
  | .DataMax _ => 4
  | .Bins _ => 5
  | .Intervals _ => 6
  | .Cumulative _ => 7
  | .Density _ => 8
  | .Handler _ => 9

def HistogramOption.isCustom : HistogramOption → Bool
  | .Custom _ => true
  | _ => false

/-- `impl fmt::Display for HistogramOption`; the `Data`/`DataValue` arms are
`todo!()` (a panic), embedded as `none`. -/
def HistogramOption.render : HistogramOption → Option String
  | .Custom value => some value
  | .Data _ => none
  | .DataValue _ => none
  | .DataMin value => some ("data min=\x7b" ++ toString value ++ "\x7d")
  | .DataMax value => some ("data max=\x7b" ++ toString value ++ "\x7d")
  | .Bins n => some ("bins=" ++ toString n)
  | .Intervals value => some ("intervals=" ++ toString value)
  | .Cumulative value => some ("cumulative=" ++ toString value)
  | .Density value => some ("density=" ++ toString value)
  | .Handler value => some ("handler/.style=\x7b" ++ value ++ "\x7d")

/-- `Histogram` (src/libs/statistics/histogram.rs); data embedded as `Int`. -/
structure Histogram where
  options : List PlotOption
  hist_options : List HistogramOption
  data : List Int
deriving DecidableEq, Repr

/-- `Histogram::new` / `Default`. -/
def Histogram.new : Histogram := ⟨[], [], []⟩

/-- `Histogram::add_option`.  NOTE: the source's scan predicate is
`std::mem::discriminant(opt) == std::mem::discriminant(opt)` — it compares an
element's discriminant with itself, so it holds for every element and the scan
always returns index `0` of a non-empty vector, whatever that element's kind. -/
def Histogram.add_option (h : Histogram) (option : PlotOption) : Histogram :=
  let options :=
    if option.isCustom then h.options
    else
      match h.options.findIdx? (fun opt => opt.kind == opt.kind) with
      | some index => h.options.eraseIdx index
      | none => h.options
  { h with options := options ++ [option] }

/-- `Histogram::option` (chaining variant; same body as `add_option`). -/
def Histogram.option (h : Histogram) (option : PlotOption) : Histogram :=
  let options :=
    if option.isCustom then h.options
    else
      match h.options.findIdx? (fun opt => opt.kind == opt.kind) with
      | some index => h.options.eraseIdx index
      | none => h.options
  { h with options := options ++ [option] }

/-- `Histogram::add_hist_option`.  NOTE: the source scans and removes from
`self.options` (the plot-option vector) with the same self-comparing
predicate as `add_option`, while pushing into `self.hist_options`. -/
def Histogram.add_hist_option (h : Histogram) (option : HistogramOption) : Histogram :=
  let options :=
    if option.isCustom then h.options
    else
      match h.options.findIdx? (fun opt => opt.kind == opt.kind) with
      | some index => h.options.eraseIdx index
      | none => h.options
  { h with options := options, hist_options := h.hist_options ++ [option] }

/-- `Histogram::hist_option` (chaining variant; same body as `add_hist_option`). -/
def Histogram.hist_option (h : Histogram) (option : HistogramOption) : Histogram :=
  let options :=
    if option.isCustom then h.options
    else
      match h.options.findIdx? (fun opt => opt.kind == opt.kind) with
      | some index => h.options.eraseIdx index
      | none => h.options
  { h with options := options, hist_options := h.hist_options ++ [option] }

/-- `impl fmt::Display for Histogram`; `none` when a contained
`HistogramOption` panics on `Display`. -/
def Histogram.render (h : Histogram) : Option String := do
  let histOptLines ← h.hist_options.mapM (fun o => do
    let s ← o.render
    pure ("\t\t\t" ++ s ++ ",\n"))
  pure <|
    "\t\\addplot+ [" ++
    (if h.hist_options.isEmpty then "\n\t\thist,"
     else "\n\t\thist=\x7b\n" ++ String.join histOptLines ++ "\t\t\x7d") ++
    "\n" ++
    (if h.options.isEmpty then ""
     else String.join (h.options.map (fun o => "\t\t" ++ o.render ++ ",\n"))) ++
    "\t] table [row sep=\\\\, y index=0] \x7b\n\t\tdata \\\\\n" ++
    String.join (h.data.map (fun d => "\t\t" ++ toString d ++ " \\\\\n")) ++
    "\t\x7d;"

/-- `PgfPlotsLib` (src/document/preamble/pgfplotslib.rs). -/
inductive PgfPlotsLib where
  | Custom (s : String)
  | Clickable
  | DatePlot
  | External
  | FillBetween
  | Statistics
  | Units
deriving DecidableEq, Repr

def PgfPlotsLib.render : PgfPlotsLib → String
  | .Custom lib => "\\usepgfplotslibrary\x7b" ++ lib ++ "\x7d"
  | .Clickable => "\\usepgfplotslibrary\x7bclickable\x7d"
  | .DatePlot => "\\usepgfplotslibrary\x7bdateplot\x7d"
  | .External => "\\usepgfplotslibrary\x7bexternal\x7d"
  | .FillBetween => "\\usepgfplotslibrary\x7bfillbetween\x7d"
  | .Statistics => "\\usepgfplotslibrary\x7bstatistics\x7d"
  | .Units => "\\usepgfplotslibrary\x7bunits\x7d"

/-- `Plot` (src/document/tikzpicture/axis/plot/mod.rs). -/
inductive Plot where
  | Draw (s : String)
  | Plot2D (p : Plot2D)
  | Histogram (h : Histogram)
deriving DecidableEq, Repr

/-- `impl fmt::Display for Plot`. -/
def Plot.render : Plot → Option String
  | .Draw draw => some ("\\draw " ++ draw ++ ";")
  | .Plot2D p => some p.render
  | .Histogram h => h.render

/-- `Plot::required_lib`. -/
def Plot.required_lib : Plot → Option PgfPlotsLib
  | .Draw _ => none
  | .Plot2D _ => none
  | .Histogram _ => some .Statistics

/-- `Scale` (src/document/tikzpicture/axis/mod.rs). -/
inductive Scale where
  | Log
  | Normal
deriving DecidableEq, Repr

def Scale.render : Scale → String
  | .Log => "log"
  | .Normal => "normal"

/-- `AxisXLine` (axis/mod.rs). -/
inductive AxisXLine where
  | Box
  | Top
  | Middle
  | Center
  | Bottom
  | None
deriving DecidableEq, Repr

def AxisXLine.render : AxisXLine → String
  | .Box => "box"
  | .Top => "top"
  | .Middle => "middle"
  | .Center => "center"
  | .Bottom => "bottom"
  | .None => "none"

/-- `AxisLines` (axis/mod.rs); `AxisYLine` and `AxisZLine` are type aliases
of it in the source. -/
inductive AxisLines where
  | Box
  | Left
  | Middle
  | Center
  | Right
  | None
deriving DecidableEq, Repr

def AxisLines.render : AxisLines → String
  | .Box => "box"
  | .Left => "left"
  | .Middle => "middle"
  | .Center => "center"
  | .Right => "right"
  | .None => "none"

/-- `Grid` (axis/mod.rs). -/
inductive Grid where
  | Major
  | Minor
  | Both
  | None
deriving DecidableEq, Repr

def Grid.render : Grid → String
  | .Major => "major"
  | .Minor => "minor"
  | .Both => "both"
  | .None => "none"

/-- `Ticks` (axis/mod.rs): a list of `f64` tick positions, embedded as `Int`. -/
structure Ticks where
  values : List Int
deriving DecidableEq, Repr

/-- `impl fmt::Display for Ticks`: `itertools::join` with `", "`. -/
def Ticks.render (t : Ticks) : String :=
  String.intercalate ", " (t.values.map toString)

/-- `TickLabels` (axis/mod.rs). -/
structure TickLabels where
  values : List String
deriving DecidableEq, Repr

def TickLabels.render (t : TickLabels) : String :=
  String.intercalate ", " t.values

/-- `AxisOption` (axis/mod.rs). -/
inductive AxisOption where
  | Custom (s : String)
  | XMin (v : Int)
  | XMax (v : Int)
  | YMin (v : Int)
  | YMax (v : Int)
  | ZMin (v : Int)
  | ZMax (v : Int)
  | Min (v : Int)
  | Max (v : Int)
  | XMode (s : Scale)
  | YMode (s : Scale)
  | Title (s : String)
  | XLabel (s : String)
  | YLabel (s : String)
  | XTick (t : Ticks)
  | YTick (t : Ticks)
  | XTickLabel (s : String)
  | YTickLabel (s : String)
  | XTickLabels (t : TickLabels)
  | YTickLabels (t : TickLabels)
  | ZTickLabels (t : TickLabels)
  | AxisXLine (v : AxisXLine)
  | AxisXLineAst (v : AxisXLine)
  | AxisYLine (v : AxisLines)
  | AxisYLineAst (v : AxisLines)
  | AxisZLine (v : AxisLines)
  | AxisZLineAst (v : AxisLines)
  | AxisLines (v : AxisLines)
  | AxisLinesAst (v : AxisLines)
  | Grid (v : Grid)
deriving DecidableEq, Repr

/-- Rust's `std::mem::discriminant` on `AxisOption`. -/
def AxisOption.kind : AxisOption → Nat
  | .Custom _ => 0
  | .XMin _ => 1
  | .XMax _ => 2
  | .YMin _ => 3
  | .YMax _ => 4
  | .ZMin _ => 5
  | .ZMax _ => 6
  | .Min _ => 7
  | .Max _ => 8
  | .XMode _ => 9
  | .YMode _ => 10
  | .Title _ => 11
  | .XLabel _ => 12
  | .YLabel _ => 13
  | .XTick _ => 14
  | .YTick _ => 15
  | .XTickLabel _ => 16
  | .YTickLabel _ => 17
  | .XTickLabels _ => 18
  | .YTickLabels _ => 19
  | .ZTickLabels _ => 20
  | .AxisXLine _ => 21
  | .AxisXLineAst _ => 22
  | .AxisYLine _ => 23
  | .AxisYLineAst _ => 24
  | .AxisZLine _ => 25
  | .AxisZLineAst _ => 26
  | .AxisLines _ => 27
  | .AxisLinesAst _ => 28
  | .Grid _ => 29

def AxisOption.isCustom : AxisOption → Bool
  | .Custom _ => true
  | _ => false

def AxisOption.render : AxisOption → String
  | .Custom option => option
  | .XMin value => "xmin=\x7b" ++ toString value ++ "\x7d"
  | .XMax value => "xmax=\x7b" ++ toString value ++ "\x7d"
  | .YMin value => "ymin=\x7b" ++ toString value ++ "\x7d"
  | .YMax value => "ymax=\x7b" ++ toString value ++ "\x7d"
  | .ZMin value => "zmin=\x7b" ++ toString value ++ "\x7d"
  | .ZMax value => "zmax=\x7b" ++ toString value ++ "\x7d"
  | .Min value => "min=\x7b" ++ toString value ++ "\x7d"
  | .Max value => "max=\x7b" ++ toString value ++ "\x7d"
  | .XMode value => "xmode=" ++ value.render
  | .YMode value => "ymode=" ++ value.render
  | .Title value => "title=\x7b" ++ value ++ "\x7d"
  | .XTick value => "xtick=\x7b" ++ value.render ++ "\x7d"
  | .YTick value => "ytick=\x7b" ++ value.render ++ "\x7d"
  | .XLabel value => "xlabel=\x7b" ++ value ++ "\x7d"
  | .YLabel value => "ylabel=\x7b" ++ value ++ "\x7d"
  | .XTickLabel value => "xticklabel=\x7b" ++ value ++ "\x7d"
  | .YTickLabel value => "yticklabel=\x7b" ++ value ++ "\x7d"
  | .XTickLabels value => "xticklabels=\x7b" ++ value.render ++ "\x7d"
  | .YTickLabels value => "yticklabels=\x7b" ++ value.render ++ "\x7d"
  | .ZTickLabels value => "zticklabels=\x7b" ++ value.render ++ "\x7d"
  | .AxisXLine value => "axis x line=" ++ value.render
  | .AxisXLineAst value => "axis x line*=" ++ value.render
  | .AxisYLine value => "axis y line=" ++ value.render
  | .AxisYLineAst value => "axis y line*=" ++ value.render
  | .AxisZLine value => "axis z line=" ++ value.render
  | .AxisZLineAst value => "axis z line*=" ++ value.render
  | .AxisLines value => "axis lines=" ++ value.render
  | .AxisLinesAst value => "axis lines*=" ++ value.render
  | .Grid value => "grid=" ++ value.render

/-- `Axis` (axis/mod.rs). -/
structure Axis where
  options : List AxisOption
  plots : List Plot
deriving DecidableEq, Repr

/-- `Axis::new` / `Default`. -/
def Axis.new : Axis := ⟨[], []⟩

/-- `Axis::add_option`: for a non-`Custom` option, remove the first option
whose discriminant matches the inserted one, then push at the end. -/
def Axis.add_option (a : Axis) (option : AxisOption) : Axis :=
  let options :=
    if option.isCustom then a.options
    else
      match a.options.findIdx? (fun idx => idx.kind == option.kind) with
      | some index => a.options.eraseIdx index
      | none => a.options
  { a with options := options ++ [option] }

/-- `Axis::option` (chaining variant; same body as `add_option`). -/
def Axis.option (a : Axis) (option : AxisOption) : Axis :=
  let options :=
    if option.isCustom then a.options
    else
      match a.options.findIdx? (fun idx => idx.kind == option.kind) with
      | some index => a.options.eraseIdx index
      | none => a.options
  { a with options := options ++ [option] }

/-- `Axis::add_plot`. -/
def Axis.add_plot (a : Axis) (plot : Plot) : Axis :=
  { a with plots := a.plots ++ [plot] }

/-- `Axis::plot` (chaining variant). -/
def Axis.plot (a : Axis) (plot : Plot) : Axis :=
  { a with plots := a.plots ++ [plot] }

/-- `Axis::required_libs`: `filter_map` of `Plot::required_lib` over the
plots, collected in order with no de-duplication. -/
def Axis.required_libs (a : Axis) : List PgfPlotsLib :=
  a.plots.filterMap Plot.required_lib

/-- `impl fmt::Display for Axis`. -/
def Axis.render (a : Axis) : Option String := do
  let plotLines ← a.plots.mapM (fun p => do
    let s ← p.render
    pure (s ++ "\n"))
  pure <|
    "\\begin\x7baxis\x7d" ++
    (if a.options.isEmpty then ""
     else "[\n" ++ String.join (a.options.map (fun k => "\t" ++ k.render ++ ",\n")) ++ "]") ++
    "\n" ++
    String.join plotLines ++
    "\\end\x7baxis\x7d"

/-- `TikzPictureOption` (src/document/tikzpicture/mod.rs). -/
inductive TikzPictureOption where
  | Custom (s : String)
deriving DecidableEq, Repr

def TikzPictureOption.render : TikzPictureOption → String
  | .Custom key => key

/-- `TikzInnerEnv` (src/document/tikzpicture/mod.rs). -/
inductive TikzInnerEnv where
  | Axis (a : Axis)
deriving DecidableEq, Repr

def TikzInnerEnv.render : TikzInnerEnv → Option String
  | .Axis env => env.render

/-- `TikzInnerEnv::required_libs`. -/
def TikzInnerEnv.required_libs : TikzInnerEnv → List PgfPlotsLib
  | .Axis env => env.required_libs

/-- `TikzPicture` (src/document/tikzpicture/mod.rs). -/
structure TikzPicture where
  options : List TikzPictureOption
  inner_env : List TikzInnerEnv
deriving DecidableEq, Repr

/-- `TikzPicture::new` / `Default`. -/
def TikzPicture.new : TikzPicture := ⟨[], []⟩

/-- `impl From<Axis> for TikzPicture` (via `From<TikzInnerEnv>`). -/
def TikzPicture.from_axis (a : Axis) : TikzPicture := ⟨[], [.Axis a]⟩

/-- `TikzPicture::add_option`: `TikzPictureOption` has only the `Custom`
variant, which is appended unconditionally. -/
def TikzPicture.add_option (p : TikzPicture) (option : TikzPictureOption) : TikzPicture :=
  { p with options := p.options ++ [option] }

/-- `TikzPicture::required_libs`: `flat_map` over the inner environments,
no de-duplication. -/
def TikzPicture.required_libs (p : TikzPicture) : List PgfPlotsLib :=
  p.inner_env.flatMap TikzInnerEnv.required_libs

/-- `TikzPicture::add_env`. -/
def TikzPicture.add_env (p : TikzPicture) (env : TikzInnerEnv) : TikzPicture :=
  { p with inner_env := p.inner_env ++ [env] }

/-- `impl fmt::Display for TikzPicture`. -/
def TikzPicture.render (p : TikzPicture) : Option String := do
  let envLines ← p.inner_env.mapM (fun e => do
    let s ← e.render
    pure (s ++ "\n"))
  pure <|
    "\\begin\x7btikzpicture\x7d" ++
    (if p.options.isEmpty then ""
     else "[\n" ++ String.join (p.options.map (fun k => "\t" ++ k.render ++ ",\n")) ++ "]") ++
    "\n" ++
    String.join envLines ++
    "\\end\x7btikzpicture\x7d"

/-- `PgfPlotsCompatError` (src/document/preamble/compat.rs). -/
inductive PgfPlotsCompatError where
  | BadCompatVersion (version : String)
deriving DecidableEq, Repr

/-- `VERSIONS` (src/document/preamble/compat.rs): the fixed closed set of
accepted PGFPlots compatibility version strings. -/
def VERSIONS : List String :=
  ["1.18", "1.17", "1.16", "1.15", "1.14", "1.13", "1.12", "1.11", "1.10", "1.9", "1.8", "1.7",
   "1.6", "1.5.1", "1.5", "1.4", "1.3", "pre1.3", "default"]

/-- `impl fmt::Display for PgfPlotsCompatError`: names the offending value
and lists the accepted set. -/
def PgfPlotsCompatError.renderMsg : PgfPlotsCompatError → String
  | .BadCompatVersion version =>
    "pgfplots compatibility version `" ++ version ++
      "` does not exists; available values are: " ++ String.intercalate ", " VERSIONS

/-- `PgfPlotsCompat` (compat.rs). -/
structure PgfPlotsCompat where
  version : String
deriving DecidableEq, Repr

/-- `PgfPlotsCompat::new`: reject any version not in `VERSIONS`. -/
def PgfPlotsCompat.new (version : String) : Except PgfPlotsCompatError PgfPlotsCompat :=
  if !(VERSIONS.contains version) then
    .error (.BadCompatVersion version)
  else
    .ok ⟨version⟩

/-- `impl TryFrom<&str> for PgfPlotsCompat` (delegates to `new`). -/
def PgfPlotsCompat.tryFrom (version : String) : Except PgfPlotsCompatError PgfPlotsCompat :=
  PgfPlotsCompat.new version

/-- `impl Default for PgfPlotsCompat`. -/
def PgfPlotsCompat.default : PgfPlotsCompat := ⟨"default"⟩

/-- `impl fmt::Display for PgfPlotsCompat`. -/
def PgfPlotsCompat.render (c : PgfPlotsCompat) : String :=
  "\\pgfplotsset\x7bcompat=" ++ c.version ++ "\x7d"

/-- `Package` (src/document/preamble/package.rs). -/
structure Package where
  name : String
  options : List String
deriving DecidableEq, Repr

/-- `impl fmt::Display for Package`. -/
def Package.render (p : Package) : String :=
  "\\usepackage\x7b" ++ p.name ++ "\x7d" ++
    (if p.options.isEmpty then "" else "[" ++ String.intercalate ", " p.options ++ "]")

/-- `Preamble` (src/document/preamble/mod.rs). -/
structure Preamble where
  pkgs : List Package
  pgflibs : List PgfPlotsLib
  pgfcompat : PgfPlotsCompat
deriving DecidableEq, Repr

/-- `Preamble::new` / `Default`. -/
def Preamble.new : Preamble := ⟨[], [], PgfPlotsCompat.default⟩

/-- `Preamble::add_pgflib`: plain push, no de-duplication. -/
def Preamble.add_pgflib (p : Preamble) (lib : PgfPlotsLib) : Preamble :=
  { p with pgflibs := p.pgflibs ++ [lib] }

/-- `Preamble::add_pgflibs`: `extend_from_slice`, no de-duplication. -/
def Preamble.add_pgflibs (p : Preamble) (libs : List PgfPlotsLib) : Preamble :=
  { p with pgflibs := p.pgflibs ++ libs }

/-- `Preamble::add_pkg`. -/
def Preamble.add_pkg (p : Preamble) (pkg : Package) : Preamble :=
  { p with pkgs := p.pkgs ++ [pkg] }

/-- `Preamble::set_pgfcompat`. -/
def Preamble.set_pgfcompat (p : Preamble) (c : PgfPlotsCompat) : Preamble :=
  { p with pgfcompat := c }

/-- `Preamble::set_pgfcompat_version`. -/
def Preamble.set_pgfcompat_version (p : Preamble) (version : String) :
    Except PgfPlotsCompatError Preamble := do
  let c ← PgfPlotsCompat.tryFrom version
  pure { p with pgfcompat := c }

/-- `impl fmt::Display for Preamble`. -/
def Preamble.render (p : Preamble) : String :=
  "\\documentclass\x7bstandalone\x7d\n\\usepackage\x7bpgfplots\x7d\n" ++
    p.pgfcompat.render ++ "\n" ++
    String.join (p.pgflibs.map (fun l => l.render ++ "\n")) ++
    String.join (p.pkgs.map (fun pkg => pkg.render ++ "\n"))

/-- `Document` (src/document/mod.rs). -/
structure Document where
  preamble : Preamble
  body : List TikzPicture
deriving DecidableEq, Repr

/-- `Document::new` / `Default`. -/
def Document.new_doc : Document := ⟨Preamble.new, []⟩

/-- `Document::add_pgflibs`. -/
def Document.add_pgflibs (d : Document) (libs : List PgfPlotsLib) : Document :=
  { d with preamble := d.preamble.add_pgflibs libs }

/-- `Document::add_picture`: unions the picture's required libraries into
the preamble (by plain concatenation) and appends the picture to the body. -/
def Document.add_picture (d : Document) (tikzpicture : TikzPicture) : Document :=
  let d := d.add_pgflibs tikzpicture.required_libs
  { d with body := d.body ++ [tikzpicture] }

/-- `Document::picture` (chaining variant; same body as `add_picture`). -/
def Document.picture (d : Document) (tikzpicture : TikzPicture) : Document :=
  d.add_picture tikzpicture

/-- `Document::standalone_string`: preamble, `\begin{document}`, the body
pictures joined by newlines, `\end{document}`, all joined by newlines.
`none` when rendering a contained histogram option would panic. -/
def Document.standalone_string (d : Document) : Option String := do
  let pics ← d.body.mapM TikzPicture.render
  pure <| String.intercalate "\n"
    [d.preamble.render, "\\begin\x7bdocument\x7d", String.intercalate "\n" pics,
     "\\end\x7bdocument\x7d"]

/-- `LatexEngine` (src/engine.rs); the `tectonic` feature is disabled, so the
`Tectonic` variant does not exist. -/
inductive LatexEngine where
  | PdfLatex
  | LuaLatex
deriving DecidableEq, Repr

def LatexEngine.render : LatexEngine → String
  | .PdfLatex => "pdflatex"
  | .LuaLatex => "lualatex"

/-- `LatexEngine::args`. -/
def LatexEngine.args : LatexEngine → List String
  | .PdfLatex => ["-interaction=batchmode", "-halt-on-error"]
  | .LuaLatex => ["--interaction=batchmode", "--halt-on-error"]

/-- `CompileError` (src/error.rs).  The Rust variant `IO` is spelled `Io`
here (the all-caps name collides with a reserved Lean name). -/
inductive CompileError where
  | TempDir (e : IoError)
  | Io (e : IoError)
  | BadExitStatus (engine : LatexEngine) (exit_status : Int)
deriving DecidableEq, Repr

/-- `LatexOutputSaveError` (src/output.rs); paths embedded as `String`. -/
inductive LatexOutputSaveError where
  | CreateDestDir (e : IoError)
  | PermissionDenied (e : IoError)
  | InvalidPath (p : String)
  | SaveFail (p : String) (e : IoError)
  | Other (e : IoError)
deriving DecidableEq, Repr

/-- `PgfPlotsError` (src/error.rs); the `Show` variant's `opener::OpenError`
payload is abstracted as `IoError`. -/
inductive PgfPlotsError where
  | Compile (e : CompileError)
  | Show (e : IoError)
  | Save (e : LatexOutputSaveError)
  | Compat (e : PgfPlotsCompatError)
deriving DecidableEq, Repr

/-- `LatexOutput::compile` (src/output.rs), with the effects of the two
system interactions passed in as oracles: `writeRes` is the combined result
of `fs::File::create(...)` + `write_all` on the source file, and `spawnRes`
is the result of `Command::status()` — an I/O error when the engine process
could not be spawned at all, otherwise the child's exit status (`0` =
success).  Both failures convert to `CompileError::IO` via the `?` operator;
a completed child with non-zero status yields `BadExitStatus` carrying the
engine and the status. -/
def LatexOutput.compile (engine : LatexEngine) (writeRes : Except IoError Unit)
    (spawnRes : Except IoError Int) : Except CompileError Unit :=
  match writeRes with
  | .error e => .error (.Io e)
  | .ok _ =>
    match spawnRes with
    | .error e => .error (.Io e)
    | .ok exit_status =>
      if !(exit_status == 0) then
        .error (.BadExitStatus engine exit_status)
      else
        .ok ()

/-- Outcome of one `fs::metadata` call, as the `save` code observes it. -/
inductive FsMeta where
  | okDir
  | okFile
  | okOther
  | errNotFound
  | errPermission (e : IoError)
  | errOther (e : IoError)
deriving DecidableEq, Repr

/-- Oracle for the filesystem interactions of one `LatexOutput::save` call. -/
structure SaveEnv where
  /-- Result of `fs::metadata(path)` on the destination. -/
  destMeta : FsMeta
  /-- Result of `path.parent()`. -/
  parentPath : Option String
  /-- Result of `fs::metadata(parent)`, consulted only on the not-found path. -/
  parentMeta : FsMeta
  /-- Result of the caller-supplied `overwrite` decision closure. -/
  overwrite : Except PgfPlotsError Bool
  /-- Result of `fs::copy` (at most one copy is ever attempted). -/
  copyRes : Except IoError Unit
  /-- Result of `fs::create_dir_all(parent)`. -/
  mkdirRes : Except IoError Unit
deriving Repr

/-- Result of one `save` call; `panicked` stands for the `unreachable!()` arms. -/
inductive SaveResult where
  | ok (saved : Bool)
  | err (e : PgfPlotsError)
  | panicked
deriving DecidableEq, Repr

/-- Effect trace of one `save` call: its result, which destinations a copy
was attempted to, and how often the overwrite decision and `create_dir_all`
were invoked. -/
structure SaveTrace where
  result : SaveResult
  copies : List String
  overwriteCalls : Nat
  createDirCalls : Nat
deriving DecidableEq, Repr

/-- The `copy` closure inside `save`: `fs::copy(&output_path, path)` mapped
to `SaveFail` on error, `Ok(true)` on success. -/
def saveCopyStep (env : SaveEnv) (p : String) : SaveResult :=
  match env.copyRes with
  | .ok _ => .ok true
  | .error e => .err (.Save (.SaveFail p e))

/-- `LatexOutput::save` (src/output.rs): dispatch on the destination's
filesystem state; `fileName` is `output_path.file_name()`. -/
def LatexOutput.save (fileName : String) (path : String) (env : SaveEnv) : SaveTrace :=
  match env.destMeta with
  | .okDir =>
    let target := path ++ "/" ++ fileName
    { result := saveCopyStep env target, copies := [target],
      overwriteCalls := 0, createDirCalls := 0 }
  | .okFile =>
    (match env.overwrite with
     | .error e =>
       { result := .err e, copies := [], overwriteCalls := 1, createDirCalls := 0 }
     | .ok true =>
       { result := saveCopyStep env path, copies := [path],
         overwriteCalls := 1, createDirCalls := 0 }
     | .ok false =>
       { result := .ok false, copies := [], overwriteCalls := 1, createDirCalls := 0 })
  | .okOther =>
    { result := .panicked, copies := [], overwriteCalls := 0, createDirCalls := 0 }
  | .errNotFound =>
    (match env.parentPath with
     | none =>
       { result := .err (.Save (.InvalidPath path)), copies := [],
         overwriteCalls := 0, createDirCalls := 0 }
     | some _parent =>
       match env.parentMeta with
       | .okDir =>
         { result := saveCopyStep env path, copies := [path],
           overwriteCalls := 0, createDirCalls := 0 }
       | .errNotFound =>
         (match env.mkdirRes with
          | .error e =>
            { result := .err (.Save (.CreateDestDir e)), copies := [],
              overwriteCalls := 0, createDirCalls := 1 }
          | .ok _ =>
            { result := saveCopyStep env path, copies := [path],
              overwriteCalls := 0, createDirCalls := 1 })
       | .errPermission e =>
         { result := .err (.Save (.PermissionDenied e)), copies := [],
           overwriteCalls := 0, createDirCalls := 0 }
       | .errOther e =>
         { result := .err (.Save (.Other e)), copies := [],
           overwriteCalls := 0, createDirCalls := 0 }
       | .okFile =>
         { result := .panicked, copies := [], overwriteCalls := 0, createDirCalls := 0 }
       | .okOther =>
         { result := .panicked, copies := [], overwriteCalls := 0, createDirCalls := 0 })
  | .errPermission e =>
    { result := .err (.Save (.PermissionDenied e)), copies := [],
      overwriteCalls := 0, createDirCalls := 0 }
  | .errOther e =>
    { result := .err (.Save (.Other e)), copies := [],
      overwriteCalls := 0, createDirCalls := 0 }

/-- Axis holding two histogram plots — the input of the repository's own
`tikzpicture::test::required_libs` test. -/
def twoHistAxis : Axis :=
  (Axis.new.add_plot (.Histogram Histogram.new)).add_plot (.Histogram Histogram.new)

/-- Document obtained by adding the two-histogram picture. -/
def twoHistDoc : Document :=
  Document.new_doc.add_picture (TikzPicture.from_axis twoHistAxis)

/-!  ## Helper lemmas about the option-insertion algorithm  -/

theorem eraseIdx_of_findIdx?_eq_some {α : Type} {p : α → Bool} :
    ∀ {l : List α} {i : Nat}, l.findIdx? p = some i → l.eraseIdx i = l.eraseP p := by
  intro l
  induction l with
  | nil => intro i h; rw [List.findIdx?_nil] at h; exact Option.noConfusion h
  | cons x xs ih =>
    intro i h
    rw [List.findIdx?_cons] at h
    by_cases hx : p x
    · rw [if_pos hx] at h
      cases h
      simp [List.eraseP_cons, hx]
    · rw [if_neg hx, List.findIdx?_succ] at h
      cases hf : xs.findIdx? p with
      | none => rw [hf] at h; simp at h
      | some j =>
        rw [hf, Option.map_some'] at h
        cases h
        simp [List.eraseP_cons, hx, ih hf]

theorem eraseIdx_match_findIdx?_eq_eraseP {α : Type} (p : α → Bool) (l : List α) :
    (match l.findIdx? p with
      | some index => l.eraseIdx index
      | none => l) = l.eraseP p := by
  cases hf : l.findIdx? p with
  | none =>
    have : ∀ x ∈ l, ¬p x := by
      intro x hx
      simpa using List.findIdx?_eq_none_iff.mp hf x hx
    simp [List.eraseP_eq_self_iff.mpr this]
  | some i => simpa using eraseIdx_of_findIdx?_eq_some hf

theorem filter_eraseP_eq_tail {α : Type} (p : α → Bool) (l : List α) :
    (l.eraseP p).filter p = (l.filter p).tail := by
  induction l with
  | nil => simp
  | cons x xs ih =>
    by_cases hx : p x
    · simp [List.eraseP_cons, hx, List.filter_cons]
    · simp [List.eraseP_cons, hx, List.filter_cons, ih]

/-- The options list produced by `Axis::add_option` with a non-custom
option: erase the first same-kind occurrence, then append. -/
theorem Axis.add_option_options (a : Axis) (o : AxisOption) (h : o.isCustom = false) :
    (a.add_option o).options
      = a.options.eraseP (fun x => x.kind == o.kind) ++ [o] := by
  simp only [Axis.add_option, h, Bool.false_eq_true, if_false]
  rw [eraseIdx_match_findIdx?_eq_eraseP]

/-- One insertion step, restricted to the kind being inserted: the previous
first occurrence disappears and the new option lands at the end. -/
theorem Axis.add_option_filter (a : Axis) (o : AxisOption) (k : Nat)
    (h : o.isCustom = false) (hk : o.kind = k) :
    (a.add_option o).options.filter (fun x => x.kind == k)
      = (a.options.filter (fun x => x.kind == k)).tail ++ [o] := by
  subst hk
  rw [Axis.add_option_options a o h, List.filter_append, filter_eraseP_eq_tail]
  simp

theorem Axis.add_option_getLast (a : Axis) (o : AxisOption) :
    (a.add_option o).options.getLast? = some o := by
  simp only [Axis.add_option]
  exact List.getLast?_concat _

/-- Folding a non-empty run of same-kind, non-custom insertions: exactly the
last-inserted option of that kind survives, and it sits at the end of the
options list. -/
theorem Axis.foldl_add_option_same_kind (k : Nat) :
    ∀ (os : List AxisOption) (lastOpt : AxisOption) (a : Axis),
      os.getLast? = some lastOpt →
      (∀ o ∈ os, o.isCustom = false ∧ o.kind = k) →
      (a.options.filter (fun x => x.kind == k)).length ≤ 1 →
      (os.foldl Axis.add_option a).options.filter (fun x => x.kind == k) = [lastOpt]
        ∧ (os.foldl Axis.add_option a).options.getLast? = some lastOpt := by
  intro os
  induction os with
  | nil => intro lastOpt a hlast; simp at hlast
  | cons o os ih =>
    intro lastOpt a hlast hall hinv
    have ho := hall o (by simp)
    have hstep := Axis.add_option_filter a o k ho.1 ho.2
    have htail : (a.options.filter (fun x => x.kind == k)).tail = [] := by
      cases hfl : a.options.filter (fun x => x.kind == k) with
      | nil => simp
      | cons y ys =>
        rw [hfl] at hinv
        simp at hinv
        simp [hinv]
    rw [htail] at hstep
    cases os with
    | nil =>
      simp only [List.getLast?_singleton, Option.some_inj] at hlast
      subst hlast
      refine ⟨by simpa using hstep, ?_⟩
      simpa using Axis.add_option_getLast a o
    | cons o' os' =>
      rw [List.getLast?_cons_cons] at hlast
      have hall' : ∀ x ∈ (o' :: os'), x.isCustom = false ∧ x.kind = k := by
        intro x hx
        exact hall x (by simp [hx])
      have hinv' : ((a.add_option o).options.filter (fun x => x.kind == k)).length ≤ 1 := by
        rw [hstep]; simp
      simpa using ih lastOpt (a.add_option o) hlast hall' hinv'

/-!  ## Claim theorems  -/

/-- C1 (evaluation at the failing input): the optional-capability
requirement set is NOT de-duplicated.  For an axis holding two histogram
plots — the exact input of the repository's own
`tikzpicture::test::required_libs` test, which asserts the result
`[Statistics]` — `Axis::required_libs` yields `Statistics` twice, the
picture's requirement list differs from the test's expectation, the
`Preamble` receives both copies when the picture is added to a document,
and the rendered preamble contains the
`\usepgfplotslibrary{statistics}` import line twice rather than once. -/
theorem c1_required_libs_not_deduplicated :
    twoHistAxis.required_libs = [.Statistics, .Statistics]
    ∧ (TikzPicture.from_axis twoHistAxis).required_libs ≠ [.Statistics]
    ∧ twoHistDoc.preamble.pgflibs = [.Statistics, .Statistics]
    ∧ twoHistDoc.preamble.render
        = "\\documentclass\x7bstandalone\x7d\n\\usepackage\x7bpgfplots\x7d\n"
          ++ "\\pgfplotsset\x7bcompat=default\x7d\n"
          ++ "\\usepgfplotslibrary\x7bstatistics\x7d\n"
          ++ "\\usepgfplotslibrary\x7bstatistics\x7d\n" :=
  ⟨by decide, by decide, by decide, by decide⟩

/-- C2: on an `Axis` whose options hold at most one entry of kind `k`, a
non-empty run of insertions of non-custom options of kind `k` through
`Axis::add_option` leaves exactly one option of that kind — the last one
inserted — and it sits at the very end of the option sequence (hence last
in render order).  Concretely, inserting `XMin 0` then `XMin 5` on a fresh
axis leaves exactly `[XMin 5]`, and the rendered option block shows the
single line `xmin={5}`. -/
theorem c2_same_kind_insertions_last_write_wins
    (a : Axis) (k : Nat) (os : List AxisOption) (lastOpt : AxisOption)
    (hlast : os.getLast? = some lastOpt)
    (hall : ∀ o ∈ os, o.isCustom = false ∧ o.kind = k)
    (hinv : (a.options.filter (fun x => x.kind == k)).length ≤ 1) :
    ((os.foldl Axis.add_option a).options.filter (fun x => x.kind == k) = [lastOpt]
      ∧ (os.foldl Axis.add_option a).options.getLast? = some lastOpt)
    ∧ ((Axis.new.add_option (.XMin 0)).add_option (.XMin 5)).options = [.XMin 5]
    ∧ ((Axis.new.add_option (.XMin 0)).add_option (.XMin 5)).render
        = some "\\begin\x7baxis\x7d[\n\txmin=\x7b5\x7d,\n]\n\\end\x7baxis\x7d" :=
  ⟨Axis.foldl_add_option_same_kind k os lastOpt a hlast hall hinv, by decide, by decide⟩

/-- C2 witness: the general statement instantiated at a fresh axis and the
two-insertion run `XMin 0`, `XMin 5` of kind `1`. -/
theorem c2_witness :
    (([AxisOption.XMin 0, AxisOption.XMin 5].foldl Axis.add_option Axis.new).options.filter
        (fun x => x.kind == 1) = [AxisOption.XMin 5]
      ∧ ([AxisOption.XMin 0, AxisOption.XMin 5].foldl Axis.add_option
          Axis.new).options.getLast? = some (AxisOption.XMin 5))
    ∧ ((Axis.new.add_option (.XMin 0)).add_option (.XMin 5)).options = [.XMin 5]
    ∧ ((Axis.new.add_option (.XMin 0)).add_option (.XMin 5)).render
        = some "\\begin\x7baxis\x7d[\n\txmin=\x7b5\x7d,\n]\n\\end\x7baxis\x7d" :=
  c2_same_kind_insertions_last_write_wins Axis.new 1
    [AxisOption.XMin 0, AxisOption.XMin 5] (AxisOption.XMin 5)
    (by decide) (by decide) (by decide)

/-- C3 (evaluation at the failing inputs): the histogram insertion
operations do not maintain the at-most-one-per-kind invariant.
`add_hist_option` never removes a same-kind predecessor (two `Bins`
options coexist); `add_option` removes the *first* element of the vector
whatever its kind (inserting `Type2D` deletes the unrelated `XError`), and
a four-step sequence leaves two options of the `XError` kind. -/
theorem c3_histogram_insertion_violates_invariant :
    ((Histogram.new.add_hist_option (.Bins 3)).add_hist_option (.Bins 5)).hist_options
        = [.Bins 3, .Bins 5]
    ∧ ((Histogram.new.add_option (.XError .Absolute)).add_option
        (.Type2D .SharpPlot)).options = [.Type2D .SharpPlot]
    ∧ ((((Histogram.new.add_option (.XError .Absolute)).add_option
          (.Custom "c")).add_option (.XError .Relative)).add_option
          (.XError .Absolute)).options
        = [.XError .Relative, .XError .Absolute] :=
  ⟨by decide, by decide, by decide⟩

/-- C4 counterexample: a coordinate with an error magnitude set, owned by a
plot with an empty option list (no direction-of-display attribute), still
renders the `+- (ex,ey)` suffix in its coordinate text — the claim's
"no error-bar suffix" fails at this concrete input. -/
theorem c4_error_suffix_counterexample :
    Coordinate2D.render ⟨1, 2, some 3, none⟩ = "(1,2)\t+- (3,0)"
    ∧ Plot2D.render ⟨[], [⟨1, 2, some 3, none⟩]⟩
        = "\t\\addplot[] coordinates \x7b\n\t\t(1,2)\t+- (3,0)\n\t\x7d;"
    ∧ Coordinate2D.render ⟨1, 2, some 3, none⟩ ≠ "(1,2)" :=
  ⟨by decide, by decide, by decide⟩

/-- C4 (amended): whenever a coordinate carries an error magnitude
(`error_x` or `error_y` is `Some`), its rendered text always carries the
`+- (ex,ey)` suffix — independently of the owning plot's options, which
`Coordinate2D`'s rendering never consults — and therefore differs from the
suffix-free form `(x,y)`.  (The direction attribute only controls whether
PGFPlots *draws* the bars, not whether the text is emitted.) -/
theorem c4_error_suffix_always_rendered (c : Coordinate2D)
    (h : (c.error_x.isSome || c.error_y.isSome) = true) :
    c.render
      = ("(" ++ toString c.x ++ "," ++ toString c.y ++ ")")
        ++ ("\t+- (" ++ toString (c.error_x.getD 0) ++ ","
            ++ toString (c.error_y.getD 0) ++ ")")
    ∧ c.render ≠ "(" ++ toString c.x ++ "," ++ toString c.y ++ ")" := by
  have hr : c.render
      = ("(" ++ toString c.x ++ "," ++ toString c.y ++ ")")
        ++ ("\t+- (" ++ toString (c.error_x.getD 0) ++ ","
            ++ toString (c.error_y.getD 0) ++ ")") := by
    simp [Coordinate2D.render, h]
  refine ⟨hr, ?_⟩
  intro heq
  rw [hr] at heq
  have hS : 0 < ("\t+- (" ++ toString (c.error_x.getD 0) ++ ","
      ++ toString (c.error_y.getD 0) ++ ")").length := by
    rw [String.length_append]
    have hparen : (")").length = 1 := by decide
    omega
  have hl := congrArg String.length heq
  rw [String.length_append] at hl
  omega

/-- C4 witness: the amended statement applied at the concrete coordinate
`(1,2)` with `error_x = 3`. -/
theorem c4_witness :
    Coordinate2D.render ⟨1, 2, some 3, none⟩ ≠ "(1,2)" := by
  have h := c4_error_suffix_always_rendered ⟨1, 2, some 3, none⟩ (by decide)
  have e : "(" ++ toString (1 : Int) ++ "," ++ toString (2 : Int) ++ ")" = "(1,2)" := by
    decide
  exact e ▸ h.2

/-- C5: `LatexOutput::compile` returns `Ok` exactly when the source was
written and the spawned compiler exited with status zero; a completed
child with non-zero status yields `BadExitStatus` carrying the engine and
that status; a failure to write the source or to spawn the process at all
yields the `IO` error kind; and `BadExitStatus` can only arise from a
successfully spawned child with a non-zero exit. -/
theorem c5_compile_exit_status_classification (engine : LatexEngine)
    (w : Except IoError Unit) (sp : Except IoError Int) :
    (LatexOutput.compile engine w sp = .ok () ↔ w = .ok () ∧ sp = .ok 0)
    ∧ (∀ s : Int, s ≠ 0 →
        LatexOutput.compile engine (.ok ()) (.ok s) = .error (.BadExitStatus engine s))
    ∧ (∀ e : IoError, LatexOutput.compile engine (.ok ()) (.error e) = .error (.Io e))
    ∧ (∀ (e : IoError) (sp2 : Except IoError Int),
        LatexOutput.compile engine (.error e) sp2 = .error (.Io e))
    ∧ (∀ (eng : LatexEngine) (s : Int),
        LatexOutput.compile engine w sp = .error (.BadExitStatus eng s) →
        w = .ok () ∧ sp = .ok s ∧ eng = engine ∧ s ≠ 0) := by
  refine ⟨?_, ?_, ?_, ?_, ?_⟩
  · cases w with
    | error e => simp [LatexOutput.compile]
    | ok u =>
      cases u
      cases sp with
      | error e => simp [LatexOutput.compile]
      | ok s =>
        by_cases hs : s = 0 <;> simp [LatexOutput.compile, hs]
  · intro s hs
    simp [LatexOutput.compile, hs]
  · intro e
    simp [LatexOutput.compile]
  · intro e sp2
    simp [LatexOutput.compile]
  · intro eng s h
    cases w with
    | error e => simp [LatexOutput.compile] at h
    | ok u =>
      cases u
      cases sp with
      | error e => simp [LatexOutput.compile] at h
      | ok s' =>
        by_cases hs : s' = 0
        · simp [LatexOutput.compile, hs] at h
        · simp [LatexOutput.compile, hs] at h
          exact ⟨rfl, by simp [h.2], h.1.symm ▸ rfl, h.2 ▸ hs⟩

/-- C5 witness: concrete classification of a non-zero exit, a failed spawn
and a zero exit. -/
theorem c5_witness :
    LatexOutput.compile .PdfLatex (.ok ()) (.ok 1)
        = .error (.BadExitStatus .PdfLatex 1)
    ∧ LatexOutput.compile .PdfLatex (.ok ()) (.error ⟨7⟩) = .error (.Io ⟨7⟩)
    ∧ LatexOutput.compile .LuaLatex (.ok ()) (.ok 0) = .ok () :=
  ⟨(c5_compile_exit_status_classification .PdfLatex (.ok ()) (.ok 1)).2.1 1 (by decide),
   (c5_compile_exit_status_classification .PdfLatex (.ok ()) (.error ⟨7⟩)).2.2.1 ⟨7⟩,
   ((c5_compile_exit_status_classification .LuaLatex (.ok ()) (.ok 0)).1).mpr ⟨rfl, rfl⟩⟩

/-- C6: setting the PGFPlots compatibility version succeeds exactly for the
strings in the fixed closed set `VERSIONS`, round-tripping to the directive
`\pgfplotsset{compat=<version>}`; any other string is rejected at the point
of assignment with `BadCompatVersion` carrying the offending value, whose
message names that value and lists the accepted set. -/
theorem c6_pgfcompat_closed_set (v : String) :
    (v ∈ VERSIONS →
      PgfPlotsCompat.tryFrom v = .ok ⟨v⟩
        ∧ PgfPlotsCompat.render ⟨v⟩ = "\\pgfplotsset\x7bcompat=" ++ v ++ "\x7d")
    ∧ (v ∉ VERSIONS →
      PgfPlotsCompat.tryFrom v = .error (.BadCompatVersion v)
        ∧ PgfPlotsCompatError.renderMsg (.BadCompatVersion v)
            = "pgfplots compatibility version `" ++ v
              ++ "` does not exists; available values are: "
              ++ String.intercalate ", " VERSIONS) := by
  constructor
  · intro hv
    exact ⟨by simp [PgfPlotsCompat.tryFrom, PgfPlotsCompat.new, hv], rfl⟩
  · intro hv
    exact ⟨by simp [PgfPlotsCompat.tryFrom, PgfPlotsCompat.new, hv], rfl⟩

/-- C6 witness: `"1.18"` is accepted and round-trips; `"3.0"` is rejected
with an error naming it. -/
theorem c6_witness :
    (PgfPlotsCompat.tryFrom "1.18" = .ok ⟨"1.18"⟩
      ∧ PgfPlotsCompat.render ⟨"1.18"⟩ = "\\pgfplotsset\x7bcompat=" ++ "1.18" ++ "\x7d")
    ∧ PgfPlotsCompat.tryFrom "3.0" = .error (.BadCompatVersion "3.0") :=
  ⟨(c6_pgfcompat_closed_set "1.18").1 (by decide),
   ((c6_pgfcompat_closed_set "3.0").2 (by decide)).1⟩

/-- C7: when the destination exists and is a regular file, `save` invokes
the caller-supplied overwrite decision exactly once; it copies over the
destination only if the decision returns `true`; and if it returns `false`
the call returns `Ok(false)` having attempted no copy at all. -/
theorem c7_save_existing_file_overwrite (fileName path : String) (env : SaveEnv)
    (hdest : env.destMeta = .okFile) :
    (LatexOutput.save fileName path env).overwriteCalls = 1
    ∧ (env.overwrite = .ok false →
        (LatexOutput.save fileName path env).result = .ok false
          ∧ (LatexOutput.save fileName path env).copies = [])
    ∧ ((LatexOutput.save fileName path env).copies ≠ [] → env.overwrite = .ok true)
    ∧ (env.overwrite = .ok true →
        (LatexOutput.save fileName path env).copies = [path]) := by
  obtain ⟨dm, pp, pm, ow, cr, mr⟩ := env
  simp only at hdest
  subst hdest
  rcases ow with e | b
  · simp [LatexOutput.save]
  · cases b <;> simp [LatexOutput.save, saveCopyStep]

/-- C7 witness: a declined overwrite on an existing file queried the
decision once, returned `Ok(false)` and copied nothing. -/
theorem c7_witness :
    (LatexOutput.save "pgfplot.pdf" "/home/user/out.pdf"
        ⟨.okFile, some "/home/user", .okDir, .ok false, .ok (), .ok ()⟩).overwriteCalls = 1
    ∧ ((Except.ok false : Except PgfPlotsError Bool) = .ok false →
        (LatexOutput.save "pgfplot.pdf" "/home/user/out.pdf"
            ⟨.okFile, some "/home/user", .okDir, .ok false, .ok (), .ok ()⟩).result = .ok false
          ∧ (LatexOutput.save "pgfplot.pdf" "/home/user/out.pdf"
              ⟨.okFile, some "/home/user", .okDir, .ok false, .ok (), .ok ()⟩).copies = []) :=
  ⟨(c7_save_existing_file_overwrite "pgfplot.pdf" "/home/user/out.pdf"
      ⟨.okFile, some "/home/user", .okDir, .ok false, .ok (), .ok ()⟩ rfl).1,
   (c7_save_existing_file_overwrite "pgfplot.pdf" "/home/user/out.pdf"
      ⟨.okFile, some "/home/user", .okDir, .ok false, .ok (), .ok ()⟩ rfl).2.1⟩

/-- C8: when the destination does not exist, `save` resolves the parent:
an existing parent directory means one direct copy to the destination and
no directory creation; a missing parent means one `create_dir_all` of the
full chain followed by the copy to the destination, succeeding when the
filesystem operations succeed. -/
theorem c8_save_missing_destination (fileName path p : String) (env : SaveEnv)
    (hdest : env.destMeta = .errNotFound) (hparent : env.parentPath = some p) :
    (env.parentMeta = .okDir →
        (LatexOutput.save fileName path env).copies = [path]
          ∧ (LatexOutput.save fileName path env).createDirCalls = 0
          ∧ (env.copyRes = .ok () →
              (LatexOutput.save fileName path env).result = .ok true))
    ∧ (env.parentMeta = .errNotFound →
        (LatexOutput.save fileName path env).createDirCalls = 1
          ∧ (env.mkdirRes = .ok () →
              (LatexOutput.save fileName path env).copies = [path]
                ∧ (env.copyRes = .ok () →
                    (LatexOutput.save fileName path env).result = .ok true))) := by
  obtain ⟨dm, pp, pm, ow, cr, mr⟩ := env
  simp only at hdest hparent
  subst hdest
  subst hparent
  constructor
  · intro hpm
    simp only at hpm
    subst hpm
    refine ⟨by simp [LatexOutput.save], by simp [LatexOutput.save], ?_⟩
    intro hcr
    simp only at hcr
    subst hcr
    simp [LatexOutput.save, saveCopyStep]
  · intro hpm
    simp only at hpm
    subst hpm
    rcases mr with e | u
    · simp [LatexOutput.save]
    · cases u
      refine ⟨by simp [LatexOutput.save], ?_⟩
      intro _
      refine ⟨by simp [LatexOutput.save], ?_⟩
      intro hcr
      simp only at hcr
      subst hcr
      simp [LatexOutput.save, saveCopyStep]

/-- C8 witness: a destination with a missing parent chain: one
`create_dir_all`, one copy to the destination, result `Ok(true)`. -/
theorem c8_witness :
    (LatexOutput.save "pgfplot.pdf" "/home/user/a/b/out.pdf"
        ⟨.errNotFound, some "/home/user/a/b", .errNotFound, .ok true, .ok (), .ok ()⟩).createDirCalls
      = 1
    ∧ (LatexOutput.save "pgfplot.pdf" "/home/user/a/b/out.pdf"
        ⟨.errNotFound, some "/home/user/a/b", .errNotFound, .ok true, .ok (), .ok ()⟩).copies
      = ["/home/user/a/b/out.pdf"]
    ∧ (LatexOutput.save "pgfplot.pdf" "/home/user/a/b/out.pdf"
        ⟨.errNotFound, some "/home/user/a/b", .errNotFound, .ok true, .ok (), .ok ()⟩).result
      = .ok true := by
  have h := c8_save_missing_destination "pgfplot.pdf" "/home/user/a/b/out.pdf"
    "/home/user/a/b"
    ⟨.errNotFound, some "/home/user/a/b", .errNotFound, .ok true, .ok (), .ok ()⟩ rfl rfl
  have h2 := h.2 rfl
  exact ⟨h2.1, (h2.2 rfl).1, (h2.2 rfl).2 rfl⟩

/-- C9: every rendering function of the embedding is a pure function of the
tree value alone — mirroring the Rust `Display` implementations, which read
only their receiver's fields, consult no global or ambient state, and
iterate only over ordered `Vec`s — so rendering the same unmutated value
twice yields identical text, for the whole document and for every node. -/
theorem c9_rendering_deterministic (d : Document) (pic : TikzPicture) (a : Axis)
    (p : Plot2D) (h : Histogram) (c : Coordinate2D) :
    d.standalone_string = d.standalone_string
    ∧ pic.render = pic.render
    ∧ a.render = a.render
    ∧ p.render = p.render
    ∧ h.render = h.render
    ∧ c.render = c.render :=
  ⟨rfl, rfl, rfl, rfl, rfl, rfl⟩

/-- C10: inserting an option (through `add_option` or the chaining
`option`) leaves the axis's plot sequence untouched, and adding a plot
leaves the option sequence untouched while appending exactly the given
plot at the end of the plot sequence. -/
theorem c10_option_plot_frame (a : Axis) (o : AxisOption) (p : Plot) :
    (a.add_option o).plots = a.plots
    ∧ (a.option o).plots = a.plots
    ∧ (a.add_plot p).options = a.options
    ∧ (a.add_plot p).plots = a.plots ++ [p] :=
  ⟨rfl, rfl, rfl, rfl⟩
